import Mathlib

/-!
# natsq: the NATS worker adapter

A shallow embedding of `handler.go`, `options.go`, `worker_handler.go` and `worker.go`.

* Stateful methods of `Worker` become functions that take the worker and return the
  updated worker together with the trace of events they caused.
* The collaborators that are not part of the package (the NATS client, the JSON encoder,
  the uuid generator, the clock, `debug.Stack`) are read from an `Env` record of oracles;
  every theorem quantifies over all of them.
* User code (native callbacks, simplified callbacks, custom handlers) is a function
  parameter that yields what the package can observe of it: whether it returned or raised,
  and which operations it performed.
* A Go `panic(v)` that is recovered yields `v` itself (for `panic(nil)` the recovered value
  is `nil`, which is what the `panicked` flag of `callSubHandler` is there for).
* Messages and byte slices are values: a callback does not rewrite the message it was given.
-/

namespace Natsq

/-! ## Values -/

/-- Raw bytes (`[]byte`). -/
abbrev Bytes := List Nat

/-- Go `any`: the dynamically typed values that travel through contexts, payloads and
raised values. `nil` is the nil interface value. -/
inductive Any where
  | nil
  | str (s : String)
  | time (t : Nat)
  | err (msg : String)
  | other (tag : Nat)
  deriving DecidableEq, Repr

/-- Go `error` values that are not nil; `traced` is the result of `errx.Trace`. -/
inductive Error where
  | base (msg : String)
  | traced (inner : Error)
  deriving DecidableEq, Repr

/-- The `errx.Trace` wrapper applied to a non-nil error. -/
def errxTrace (e : Error) : Error := Error.traced e

/-- Context keys, compared by identity. -/
abbrev CtxKey := Nat

/-- A `context.Context` as the chain of values attached to it, most recent first. -/
structure Ctx where
  entries : List (CtxKey × Any)
  deriving DecidableEq, Repr

/-- The empty context, `context.Background()`. -/
def Ctx.Background : Ctx := ⟨[]⟩

/-- Attach a value, `context.WithValue(ctx, key, val)`. -/
def Ctx.WithValue (ctx : Ctx) (key : CtxKey) (val : Any) : Ctx :=
  ⟨(key, val) :: ctx.entries⟩

/-- Read a value, `ctx.Value(key)`: the most recently attached value, nil when absent. -/
def Ctx.Value (ctx : Ctx) (key : CtxKey) : Any :=
  match ctx.entries.lookup key with
  | some v => v
  | none => Any.nil

/-- A `nats.Header`: a map from (case-sensitive) keys to lists of values. The nil map and
the empty map are both the empty list. -/
structure Header where
  entries : List (String × List String)
  deriving DecidableEq, Repr

/-- The header made by `make(nats.Header)`. -/
def Header.empty : Header := ⟨[]⟩

/-- Replace all values of `key` by the single `value`, `h.Set(key, value)`. -/
def Header.Set (h : Header) (key value : String) : Header :=
  ⟨(key, [value]) :: h.entries.filter (fun e => e.1 != key)⟩

/-- First value stored under `key`, the empty string when there is none, `h.Get(key)`.
Headers built by `Set` or decoded from the wire hold at least one value per key. -/
def Header.Get (h : Header) (key : String) : String :=
  match h.entries.lookup key with
  | some (v :: _) => v
  | _ => ""

/-- A `nats.Msg` (the fields the package reads or writes). -/
structure Msg where
  Subject : String
  Reply : String
  Header : Header
  Data : Bytes
  deriving DecidableEq, Repr

/-- A connection handle, `*nats.Conn` that is not nil. -/
structure Conn where
  id : Nat
  deriving DecidableEq, Repr

/-- A subscription handle, `*nats.Subscription`. -/
structure Sub where
  id : Nat
  deriving DecidableEq, Repr

/-- A logger, identified by its namespace. -/
structure Logger where
  ns : String
  deriving DecidableEq, Repr

/-- Log levels used by the package. -/
inductive LogLevel where
  | trace
  | warn
  | error
  deriving DecidableEq, Repr

/-! ## Operations and events -/

/-- Primitive operations on the collaborators. A log line is recorded with its level and
its message template. `ack`, `nak` and `unsubscribe` also record the result the transport
gave, which the package discards or only logs. -/
inductive Op where
  | log (lvl : LogLevel) (template : String)
  | uuidNewString (id : String)
  | connect (url : String) (token : String)
  | connClose (c : Option Conn)
  | queueSubscribe (c : Conn) (topic : String) (group : String)
  | unsubscribe (s : Sub) (res : Option Error)
  | publishMsg (c : Conn) (m : Msg)
  | ack (m : Msg) (res : Option Error)
  | nak (m : Msg) (res : Option Error)
  deriving DecidableEq, Repr

/-- What a run of the package does, in order: primitive operations, the invocation of a
native subscription callback, and the two calls into the `Handler`. -/
inductive Event where
  | op (o : Op)
  | callback (ctx : Ctx) (msg : Msg)
  | onSubscribePanic (ctx : Ctx) (topic : String) (data : Bytes) (errValue : Any)
      (stack : Bytes)
  | handlerPublish (ctx : Ctx) (conn : Conn) (msg : Msg)
  deriving DecidableEq, Repr

/-- The collaborators outside the package. -/
structure Env where
  /-- Result of `time.Now()`. -/
  now : Nat
  /-- Result of `debug.Stack()`. -/
  stack : Bytes
  /-- Result of `uuid.NewString()`. -/
  uuid : String
  /-- Result of `json.Marshal`. -/
  marshal : Any → Except Error Bytes
  /-- Result of `nats.Connect(url, nats.Token(token), ...)`. -/
  connect : String → String → Except Error Conn
  /-- Result of `conn.IsConnected()`. -/
  isConnected : Conn → Bool
  /-- Result of `conn.QueueSubscribe(topic, group, cb)`. -/
  queueSubscribe : Conn → String → String → Except Error Sub
  /-- Result of `sub.Unsubscribe()`. -/
  unsubscribe : Sub → Option Error
  /-- Result of `conn.PublishMsg(msg)`. -/
  publishMsg : Conn → Msg → Option Error
  /-- Result of `msg.Ack()`. -/
  ack : Msg → Option Error
  /-- Result of `msg.Nak()`. -/
  nak : Msg → Option Error

/-- Constants the package refers to: `HeaderPublishId`, `ContextStartedAt` and
`ContextPublishId` are declared in a file of the package that is not among the sources;
`RequestIdKey` is the request-id key of the logging library. -/
structure Constants where
  HeaderPublishId : String
  ContextStartedAt : CtxKey
  ContextPublishId : CtxKey
  RequestIdKey : CtxKey

/-! ## handler.go -/

/-- How a callback ended: it returned, or it raised `v` (`panic(v)`). -/
inductive Outcome where
  | returned
  | raised (v : Any)
  deriving DecidableEq, Repr

/-- One run of a native callback: the operations it performed and how it ended. -/
structure CallbackRun where
  ops : List Op
  outcome : Outcome
  deriving DecidableEq, Repr

/-- The native callback type `func(ctx context.Context, msg *nats.Msg)`. -/
abbrev SubscriberHandlerFunc := Ctx → Msg → CallbackRun

/-- One run of `Handler.OnSubscribePanic`: the lines it logged, and the value it raised if
it did not return. The method receives neither the message nor the connection. -/
structure PanicRun where
  logs : List (LogLevel × String)
  raised : Option Any

/-- One run of `Handler.Publish`: the operations it performed and the error it returned. -/
structure PublishRun where
  ops : List Op
  err : Option Error

/-- The `Handler` interface (a value that is not nil). -/
structure Handler where
  OnSubscribePanic : Env → Ctx → String → Bytes → Any → Bytes → PanicRun
  Publish : Env → Ctx → Conn → Msg → PublishRun

/-- The default handler: logs the panic, forwards the publish to the connection. -/
def noHandler (_log : Logger) : Handler where
  OnSubscribePanic := fun _ _ _ _ _ _ =>
    { logs := [(LogLevel.error,
        "Panic occurred on handling subscription. Topic=%s Data=%s CausedBy=%v\n  Stack=%s")],
      raised := none }
  Publish := fun env _ conn msg =>
    { ops := [Op.publishMsg conn msg], err := env.publishMsg conn msg }

/-! ## options.go -/

/-- The option record; `h` is an interface value and may be nil. -/
structure initOption where
  h : Option Handler

/-- The setter type `func(o *initOption)`. -/
abbrev InitOptionSetter := initOption → initOption

/-- The value raised by `WithHandler(nil)`. -/
def emptyHandlerError : Any := Any.err "natsq: cannot set empty Handler"

/-- `WithHandler`: raises when the handler is nil, otherwise returns the setter that stores
it. -/
def WithHandler (h : Option Handler) : Except Any InitOptionSetter :=
  match h with
  | none => Except.error emptyHandlerError
  | some hv => Except.ok (fun o => { o with h := some hv })

/-- `evaluateInitOptions`: run the setters in order over the default option. -/
def evaluateInitOptions (log : Logger) (args : List InitOptionSetter) : initOption :=
  args.foldl (fun o fn => fn o) { h := some (noHandler log) }

/-! ## worker_handler.go -/

/-- How a simplified callback ended: it returned `noRetry`, or it raised `v`. -/
inductive WorkerOutcome where
  | returned (noRetry : Bool)
  | raised (v : Any)
  deriving DecidableEq, Repr

/-- The simplified callback type
`func(ctx context.Context, topic string, data []byte) (noRetry bool)`. -/
abbrev WorkerHandlerFunc := Ctx → String → Bytes → WorkerOutcome

/-- `wrapWorker`: run the simplified callback on the subject and data of the message, then
`Nak` when it returned false and `Ack` when it returned true, discarding the result of
either. A raise of the callback leaves the closure before any of the two. -/
def wrapWorker (env : Env) (handlerFunc : WorkerHandlerFunc) : SubscriberHandlerFunc :=
  fun ctx msg =>
    match handlerFunc ctx msg.Subject msg.Data with
    | WorkerOutcome.raised v => { ops := [], outcome := Outcome.raised v }
    | WorkerOutcome.returned noRetry =>
      if !noRetry then
        { ops := [Op.nak msg (env.nak msg)], outcome := Outcome.returned }
      else
        { ops := [Op.ack msg (env.ack msg)], outcome := Outcome.returned }

/-! ## worker.go -/

/-- The map `map[string]*nats.Subscription` as an association list. -/
abbrev SubMap := List (String × Sub)

/-- Read `m[topic]`. -/
def SubMap.get (m : SubMap) (topic : String) : Option Sub :=
  List.lookup topic m

/-- Assign `m[topic] = sub`: any entry of `topic` is replaced. -/
def SubMap.set (m : SubMap) (topic : String) (sub : Sub) : SubMap :=
  m.filter (fun e => e.1 != topic) ++ [(topic, sub)]

/-- The `Worker` struct. `client` is nil when `none`; `handler` is an interface value. -/
structure Worker where
  client : Option Conn
  host : String
  port : Nat
  authToken : String
  log : Logger
  subs : SubMap
  handler : Option Handler

/-- The value raised by the Go runtime when a method is called on a nil interface. -/
def nilDereference : Any :=
  Any.err "runtime error: invalid memory address or nil pointer dereference"

/-- `NewWorker`. -/
def NewWorker (host : String) (port : Nat) (authToken : String)
    (args : List InitOptionSetter) : Worker :=
  let log : Logger := ⟨"natsq"⟩
  let opt := evaluateInitOptions log args
  { client := none, host := host, port := port, authToken := authToken, log := log,
    handler := opt.h, subs := [] }

/-- Result of `Worker.Client`. -/
structure ClientResult where
  conn : Except Error Conn
  worker : Worker
  trace : List Event

/-- `Worker.Client`: the current connection when there is one and it is connected,
otherwise a new connection, stored in the worker when the connect succeeds. -/
def Worker.Client (env : Env) (w : Worker) : ClientResult :=
  match w.client.filter env.isConnected with
  | some c => { conn := Except.ok c, worker := w, trace := [] }
  | none =>
    let host := "nats://" ++ w.host ++ ":" ++ toString w.port
    let t0 := [Event.op (Op.log LogLevel.trace "Initiating connection to server... Host=%s)"),
               Event.op (Op.connect host w.authToken)]
    match env.connect host w.authToken with
    | Except.error e => { conn := Except.error (errxTrace e), worker := w, trace := t0 }
    | Except.ok c =>
      { conn := Except.ok c, worker := { w with client := some c },
        trace := t0 ++ [Event.op (Op.log LogLevel.trace "Connected")] }

/-- Events of one turn of the loop of `Worker.Close`. -/
def closeStep (env : Env) (e : String × Sub) : List Event :=
  match env.unsubscribe e.2 with
  | some err =>
    [Event.op (Op.unsubscribe e.2 (some err)),
     Event.op (Op.log LogLevel.warn "Failed to unsubscribe. Topic=%s, Error=%s")]
  | none =>
    [Event.op (Op.unsubscribe e.2 none),
     Event.op (Op.log LogLevel.trace "Success Unsubscribed. Topic=%s")]

/-- `Worker.Close`: unsubscribe every entry of the registry (in the order the map yields
them), close the client, reset the client and the registry. -/
def Worker.Close (env : Env) (w : Worker) : Worker × List Event :=
  let t1 := w.subs.flatMap (closeStep env)
  let t2 := [Event.op (Op.connClose w.client)]
  ({ w with client := none, subs := [] },
   t1 ++ t2 ++ [Event.op (Op.log LogLevel.trace "Nats connection has been closed")])

/-- Result of `NewPublishId`. -/
structure PublishId where
  ctx : Ctx
  pubId : String
  trace : List Event

/-- `NewPublishId`: the request id of the context when it is a non-empty string, otherwise
a new uuid that is also stored in the context under the request-id key. -/
def NewPublishId (K : Constants) (env : Env) (ctx : Ctx) : PublishId :=
  match ctx.Value K.RequestIdKey with
  | Any.str sv =>
    if sv != "" then
      { ctx := ctx, pubId := sv, trace := [] }
    else
      { ctx := ctx.WithValue K.RequestIdKey (Any.str env.uuid), pubId := env.uuid,
        trace := [Event.op (Op.uuidNewString env.uuid)] }
  | _ =>
    { ctx := ctx.WithValue K.RequestIdKey (Any.str env.uuid), pubId := env.uuid,
      trace := [Event.op (Op.uuidNewString env.uuid)] }

/-- Result of `Worker.Publish` and `Worker.SubscribeMsg`: the returned error, or the value
that was raised instead of returning. -/
structure CallResult where
  err : Option Error
  raised : Option Any
  worker : Worker
  trace : List Event

/-- `Worker.Publish`. -/
def Worker.Publish (K : Constants) (env : Env) (w : Worker) (ctx : Ctx) (topic : String)
    (data : Any) : CallResult :=
  let pid := NewPublishId K env ctx
  let h := Header.empty.Set K.HeaderPublishId pid.pubId
  match env.marshal data with
  | Except.error e =>
    { err := some (errxTrace e), raised := none, worker := w,
      trace := pid.trace ++
        [Event.op (Op.log LogLevel.error
          "Failed to serialize payload to json. Topic=%s Payload=%+v")] }
  | Except.ok d =>
    let msg : Msg := { Subject := topic, Reply := "", Header := h, Data := d }
    let c := w.Client env
    match c.conn with
    | Except.error e =>
      { err := some (errxTrace e), raised := none, worker := c.worker,
        trace := pid.trace ++ c.trace ++
          [Event.op (Op.log LogLevel.error "Failed to initiate NATS client")] }
    | Except.ok conn =>
      match c.worker.handler with
      | none =>
        { err := none, raised := some nilDereference, worker := c.worker,
          trace := pid.trace ++ c.trace }
      | some H =>
        let r := H.Publish env pid.ctx conn msg
        { err := r.err, raised := none, worker := c.worker,
          trace := pid.trace ++ c.trace ++ [Event.handlerPublish pid.ctx conn msg] ++
            r.ops.map Event.op }

/-- Result of `Worker.callSubHandler` and of the subscription trampoline: the events, and
the value that left the call as a raise, if any. -/
structure GuardResult where
  trace : List Event
  raised : Option Any

/-- `Worker.callSubHandler`: run the callback; the deferred guard recovers what it raised
(`r`, nil when nothing or nil was raised) and calls `OnSubscribePanic` when `r` is not nil
or the flag `panicked` was not reset. -/
def Worker.callSubHandler (env : Env) (w : Worker) (h : SubscriberHandlerFunc) (ctx : Ctx)
    (msg : Msg) : GuardResult :=
  let run := h ctx msg
  let panicked : Bool :=
    match run.outcome with
    | Outcome.returned => false
    | Outcome.raised _ => true
  let r : Any :=
    match run.outcome with
    | Outcome.returned => Any.nil
    | Outcome.raised v => v
  let t0 := Event.callback ctx msg :: run.ops.map Event.op
  if r ≠ Any.nil ∨ panicked = true then
    match w.handler with
    | none => { trace := t0, raised := some nilDereference }
    | some H =>
      let p := H.OnSubscribePanic env ctx msg.Subject msg.Data r env.stack
      { trace := t0 ++ [Event.onSubscribePanic ctx msg.Subject msg.Data r env.stack] ++
          p.logs.map (fun l => Event.op (Op.log l.1 l.2)),
        raised := p.raised }
  else
    { trace := t0, raised := none }

/-- The closure that `Worker.SubscribeMsg` registers with `QueueSubscribe`, run on one
delivered message. -/
def Worker.trampoline (K : Constants) (env : Env) (w : Worker) (topic : String)
    (handler : SubscriberHandlerFunc) (msg : Msg) : GuardResult :=
  let ctx0 := Ctx.Background
  let startedAt := env.now
  let ctx1 := ctx0.WithValue K.ContextStartedAt (Any.time startedAt)
  let pubId := msg.Header.Get K.HeaderPublishId
  let ctx := ctx1.WithValue K.ContextPublishId (Any.str pubId)
  let t0 := [Event.op (Op.log LogLevel.trace
    "Received message for Subscription. Topic=%s PublishId=%s")]
  let _ := topic
  let r := w.callSubHandler env handler ctx msg
  match r.raised with
  | some v => { trace := t0 ++ r.trace, raised := some v }
  | none =>
    { trace := t0 ++ r.trace ++ [Event.op (Op.log LogLevel.trace
        "Handling subscription done. Topic=%s PublishId=%s TimeElapsed=%s")],
      raised := none }

/-- `Worker.SubscribeMsg`: acquire the client, queue-subscribe on `topic` with `topic` as
the group, store the subscription under `topic`. The callback only enters the registered
closure (`Worker.trampoline`). -/
def Worker.SubscribeMsg (env : Env) (w : Worker) (topic : String)
    (_handler : SubscriberHandlerFunc) : CallResult :=
  let c := w.Client env
  match c.conn with
  | Except.error e =>
    { err := some (errxTrace e), raised := none, worker := c.worker,
      trace := c.trace ++ [Event.op (Op.log LogLevel.error "Failed to initiate NATS client")] }
  | Except.ok conn =>
    let t1 := c.trace ++ [Event.op (Op.queueSubscribe conn topic topic)]
    match env.queueSubscribe conn topic topic with
    | Except.error e =>
      { err := some e, raised := none, worker := c.worker,
        trace := t1 ++ [Event.op (Op.log LogLevel.error "Failed to Subscribe. Topic=%s")] }
    | Except.ok sub =>
      { err := none, raised := none,
        worker := { c.worker with subs := c.worker.subs.set topic sub },
        trace := t1 ++ [Event.op (Op.log LogLevel.trace "Subscription started. Topic=%s")] }

/-- `Worker.Subscribe`. -/
def Worker.Subscribe (env : Env) (w : Worker) (topic : String)
    (handler : WorkerHandlerFunc) : CallResult :=
  w.SubscribeMsg env topic (wrapWorker env handler)

/-! ## Observations on traces -/

/-- The event is a call of `Handler.OnSubscribePanic`. -/
def Event.isPanicCall : Event → Bool
  | Event.onSubscribePanic _ _ _ _ _ => true
  | _ => false

/-- The event is a call of `Handler.Publish`. -/
def Event.isHandlerPublish : Event → Bool
  | Event.handlerPublish _ _ _ => true
  | _ => false

/-- The event is a `Nak` of some message. -/
def Event.isNak : Event → Bool
  | Event.op (Op.nak _ _) => true
  | _ => false

/-- The event is an `Ack` of some message. -/
def Event.isAck : Event → Bool
  | Event.op (Op.ack _ _) => true
  | _ => false

/-- The event is a `nats.Connect`. -/
def Event.isConnect : Event → Bool
  | Event.op (Op.connect _ _) => true
  | _ => false

/-- The subscription an event unsubscribes, if it is an `Unsubscribe`. -/
def Event.unsubscribed : Event → Option Sub
  | Event.op (Op.unsubscribe s _) => some s
  | _ => none

/-- The handle an event closes, if it is a `Close` of the connection. -/
def Event.closed : Event → Option (Option Conn)
  | Event.op (Op.connClose c) => some c
  | _ => none

/-- The context an event passes to the native callback, if it is its invocation. -/
def Event.callbackCtx : Event → Option Ctx
  | Event.callback ctx _ => some ctx
  | _ => none

/-! ## Sample data -/

/-- Sample constants. -/
def sampleK : Constants :=
  { HeaderPublishId := "publish-id", ContextStartedAt := 1, ContextPublishId := 2,
    RequestIdKey := 0 }

/-- Sample collaborators: everything succeeds, except that `Nak` and the marshalling of
`Any.other` values fail, subscription 2 does not unsubscribe and topic "down" cannot be
subscribed. -/
def sampleEnv : Env :=
  { now := 1700000000, stack := [103, 111], uuid := "u-1",
    marshal := fun d =>
      match d with
      | Any.other _ => Except.error (Error.base "json: unsupported type")
      | _ => Except.ok [123, 125],
    connect := fun _ _ => Except.ok ⟨7⟩,
    isConnected := fun _ => true,
    queueSubscribe := fun _ topic _ =>
      if topic = "down" then Except.error (Error.base "nats: invalid subject")
      else Except.ok ⟨topic.length⟩,
    unsubscribe := fun s =>
      if s.id = 2 then some (Error.base "nats: invalid subscription") else none,
    publishMsg := fun _ _ => none,
    ack := fun _ => none,
    nak := fun _ => some (Error.base "nats: message was already acknowledged") }

/-- Sample collaborators that cannot connect. -/
def offlineEnv : Env :=
  { sampleEnv with connect := fun _ _ => Except.error (Error.base "nats: no servers") }

/-- Sample worker, freshly constructed with the default handler. -/
def sampleWorker : Worker := NewWorker "localhost" 4222 "secret" []

/-- Sample worker that is connected and holds three subscriptions. -/
def busyWorker : Worker :=
  { sampleWorker with
    client := some ⟨7⟩
    subs := [("a", ⟨1⟩), ("b", ⟨2⟩), ("c", ⟨3⟩)] }

/-- Sample message on topic "orders". -/
def sampleMsg : Msg :=
  { Subject := "orders", Reply := "", Header := Header.empty, Data := [1, 2, 3] }

/-- Sample simplified callback: raises on data that starts with 0, otherwise returns
whether the data is not empty. -/
def sampleFunc : WorkerHandlerFunc := fun _ _ data =>
  match data with
  | 0 :: _ => WorkerOutcome.raised (Any.str "bad")
  | [] => WorkerOutcome.returned false
  | _ => WorkerOutcome.returned true

/-- Sample message whose data makes `sampleFunc` raise. -/
def badMsg : Msg :=
  { Subject := "orders", Reply := "", Header := Header.empty, Data := [0, 1] }

/-! ## Theorems -/

/-- Primitive operations are never calls of `OnSubscribePanic`. -/
theorem filter_isPanicCall_ops (ops : List Op) :
    (ops.map Event.op).filter Event.isPanicCall = [] := by
  rw [List.filter_eq_nil_iff]
  intro e he
  obtain ⟨o, _, rfl⟩ := List.mem_map.mp he
  simp [Event.isPanicCall]

/-- Log lines are never calls of `OnSubscribePanic`. -/
theorem filter_isPanicCall_logs (logs : List (LogLevel × String)) :
    (logs.map (fun l => Event.op (Op.log l.1 l.2))).filter Event.isPanicCall = [] := by
  rw [List.filter_eq_nil_iff]
  intro e he
  obtain ⟨o, _, rfl⟩ := List.mem_map.mp he
  simp [Event.isPanicCall]

/-- Log lines are neither `Ack` nor `Nak`. -/
theorem countP_logs (logs : List (LogLevel × String)) :
    (logs.map (fun l => Event.op (Op.log l.1 l.2))).countP Event.isNak = 0 ∧
    (logs.map (fun l => Event.op (Op.log l.1 l.2))).countP Event.isAck = 0 := by
  constructor <;>
  · rw [List.countP_eq_zero]
    intro e he
    obtain ⟨o, _, rfl⟩ := List.mem_map.mp he
    simp [Event.isNak, Event.isAck]

/-- Reading back the key that was just set yields the value that was set. -/
theorem Header.Get_Set (h : Header) (key value : String) :
    (h.Set key value).Get key = value := by
  simp [Header.Set, Header.Get, List.lookup]

/-- A context that carries a non-empty request id yields it, unchanged, with no effect. -/
theorem NewPublishId_of_requestId (K : Constants) (env : Env) (ctx : Ctx) (T : String)
    (hv : ctx.Value K.RequestIdKey = Any.str T) (hT : T ≠ "") :
    NewPublishId K env ctx = { ctx := ctx, pubId := T, trace := [] } := by
  simp [NewPublishId, hv, hT]

/-- Every event of `Client` is a primitive operation. -/
theorem Client_trace_ops (env : Env) (w : Worker) :
    ∀ e ∈ (w.Client env).trace, ∃ o, e = Event.op o := by
  intro e he
  cases hf : w.client.filter env.isConnected with
  | some c => simp [Worker.Client, hf] at he
  | none =>
    cases hc : env.connect ("nats://" ++ w.host ++ ":" ++ toString w.port) w.authToken <;>
      simp [Worker.Client, hf, hc] at he <;> rcases he with h | h <;>
      first
        | exact ⟨_, h⟩
        | (rcases h with h | h <;> exact ⟨_, h⟩)

/-- The call `Client` never calls `Handler.Publish`. -/
theorem Client_filter_isHandlerPublish (env : Env) (w : Worker) :
    (w.Client env).trace.filter Event.isHandlerPublish = [] := by
  rw [List.filter_eq_nil_iff]
  intro e he
  obtain ⟨o, rfl⟩ := Client_trace_ops env w e he
  simp [Event.isHandlerPublish]

/-- The call `Client` leaves the handler and the registry alone. -/
theorem Client_frame (env : Env) (w : Worker) :
    (w.Client env).worker.handler = w.handler ∧ (w.Client env).worker.subs = w.subs := by
  cases hf : w.client.filter env.isConnected with
  | some c => simp [Worker.Client, hf]
  | none =>
    cases hc : env.connect ("nats://" ++ w.host ++ ":" ++ toString w.port) w.authToken <;>
      simp [Worker.Client, hf, hc]

/-- A successful `Client` leaves the returned connection in the worker. -/
theorem Client_ok_client (env : Env) (w : Worker) (conn : Conn)
    (h : (w.Client env).conn = Except.ok conn) : (w.Client env).worker.client = some conn := by
  cases hf : w.client.filter env.isConnected with
  | some c =>
    simp [Worker.Client, hf] at h ⊢
    subst h
    exact (Option.filter_eq_some.mp hf).1
  | none =>
    cases hc : env.connect ("nats://" ++ w.host ++ ":" ++ toString w.port) w.authToken <;>
      simp [Worker.Client, hf, hc] at h ⊢
    exact h

/-- A failed `Client` leaves the worker as it was. -/
theorem Client_error_worker (env : Env) (w : Worker) (e : Error)
    (h : (w.Client env).conn = Except.error e) : (w.Client env).worker = w := by
  cases hf : w.client.filter env.isConnected with
  | some c => simp [Worker.Client, hf]
  | none =>
    cases hc : env.connect ("nats://" ++ w.host ++ ":" ++ toString w.port) w.authToken <;>
      simp [Worker.Client, hf, hc] at h ⊢

/-- Primitive operations are never calls of `Handler.Publish`. -/
theorem filter_isHandlerPublish_ops (ops : List Op) :
    (ops.map Event.op).filter Event.isHandlerPublish = [] := by
  rw [List.filter_eq_nil_iff]
  intro e he
  obtain ⟨o, _, rfl⟩ := List.mem_map.mp he
  simp [Event.isHandlerPublish]

/-- The loop of `Close` unsubscribes the registered subscriptions, each once, in order. -/
theorem closeLoop_unsubscribed (env : Env) (subs : SubMap) :
    (subs.flatMap (closeStep env)).filterMap Event.unsubscribed = subs.map Prod.snd := by
  induction subs with
  | nil => rfl
  | cons e es ih =>
    rw [List.flatMap_cons, List.filterMap_append, ih]
    cases hu : env.unsubscribe e.2 <;> simp [closeStep, hu, Event.unsubscribed]

/-- The loop of `Close` does not close the connection. -/
theorem closeLoop_closed (env : Env) (subs : SubMap) :
    (subs.flatMap (closeStep env)).filterMap Event.closed = [] := by
  induction subs with
  | nil => rfl
  | cons e es ih =>
    rw [List.flatMap_cons, List.filterMap_append, ih]
    cases hu : env.unsubscribe e.2 <;> simp [closeStep, hu, Event.closed]

/-- Primitive operations are never invocations of the native callback. -/
theorem filterMap_callbackCtx_ops (ops : List Op) :
    (ops.map Event.op).filterMap Event.callbackCtx = [] := by
  rw [List.filterMap_eq_nil_iff]
  intro e he
  obtain ⟨o, _, rfl⟩ := List.mem_map.mp he
  rfl

/-- Log lines are never invocations of the native callback. -/
theorem filterMap_callbackCtx_logs (logs : List (LogLevel × String)) :
    (logs.map (fun l => Event.op (Op.log l.1 l.2))).filterMap Event.callbackCtx = [] := by
  rw [List.filterMap_eq_nil_iff]
  intro e he
  obtain ⟨o, _, rfl⟩ := List.mem_map.mp he
  rfl

/-- The guard `callSubHandler` invokes the native callback once, with the context it was
given. -/
theorem callSubHandler_callbackCtx (env : Env) (w : Worker) (h : SubscriberHandlerFunc)
    (ctx : Ctx) (msg : Msg) :
    (w.callSubHandler env h ctx msg).trace.filterMap Event.callbackCtx = [ctx] := by
  unfold Worker.callSubHandler
  simp only []
  split
  · cases w.handler <;>
      simp [List.filterMap_append, filterMap_callbackCtx_ops, filterMap_callbackCtx_logs,
        Event.callbackCtx]
  · simp [filterMap_callbackCtx_ops, Event.callbackCtx]

/-- Every message `Publish` hands to the handler carries the derived publish id in its
publish-id header. -/
theorem Publish_handlerPublish_header (K : Constants) (env : Env) (w : Worker) (ctx : Ctx)
    (topic : String) (data : Any) (c : Ctx) (conn : Conn) (m : Msg)
    (hm : Event.handlerPublish c conn m ∈ (w.Publish K env ctx topic data).trace) :
    m.Header.Get K.HeaderPublishId = (NewPublishId K env ctx).pubId := by
  have hn : Event.handlerPublish c conn m ∉ (NewPublishId K env ctx).trace := by
    unfold NewPublishId
    split
    · split <;> simp
    · simp
  have hcl : Event.handlerPublish c conn m ∉ (w.Client env).trace := by
    intro hin
    obtain ⟨o, ho⟩ := Client_trace_ops env w _ hin
    cases ho
  cases hd : env.marshal data with
  | error e => simp [Worker.Publish, hd, hn] at hm
  | ok d =>
    cases hc : (w.Client env).conn with
    | error e => simp [Worker.Publish, hd, hc, hn, hcl] at hm
    | ok cn =>
      cases hh : (w.Client env).worker.handler with
      | none => simp [Worker.Publish, hd, hc, hh, hn, hcl] at hm
      | some H =>
        simp [Worker.Publish, hd, hc, hh, hn, hcl] at hm
        obtain ⟨-, -, rfl⟩ := hm
        exact Header.Get_Set _ _ _

/-- Looking up a key in a list none of whose entries has that key. -/
theorem lookup_filter_ne_self (m : SubMap) (topic : String) :
    List.lookup topic (m.filter (fun e => e.1 != topic)) = none := by
  induction m with
  | nil => rfl
  | cons e es ih =>
    obtain ⟨k, v⟩ := e
    by_cases hk : k = topic
    · subst hk
      simpa [List.filter_cons] using ih
    · have hk2 : (topic == k) = false := by simpa using fun h => hk h.symm
      simp [List.filter_cons, hk, List.lookup, hk2, ih]

/-- Removing the entries of one key does not change the lookup of another key. -/
theorem lookup_filter_ne_other (m : SubMap) (topic k : String) (hk : k ≠ topic) :
    List.lookup k (m.filter (fun e => e.1 != topic)) = List.lookup k m := by
  induction m with
  | nil => rfl
  | cons e es ih =>
    obtain ⟨k2, v⟩ := e
    by_cases h2 : k2 = topic
    · subst h2
      have : (k == k2) = false := by simpa using hk
      simp [List.filter_cons, List.lookup, this, ih]
    · by_cases h3 : k = k2
      · subst h3
        simp [List.filter_cons, h2, List.lookup]
      · have : (k == k2) = false := by simpa using h3
        simp [List.filter_cons, h2, List.lookup, this, ih]

/-- Lookup in an appended association list. -/
theorem lookup_append_singleton (m : SubMap) (k topic : String) (sub : Sub) :
    List.lookup k (m ++ [(topic, sub)]) =
      (List.lookup k m).orElse (fun _ => if k = topic then some sub else none) := by
  induction m with
  | nil =>
    by_cases h : k = topic
    · subst h
      simp [List.lookup]
    · have : (k == topic) = false := by simpa using h
      simp [List.lookup, this, h]
  | cons e es ih =>
    obtain ⟨k2, v⟩ := e
    by_cases h3 : k = k2
    · subst h3
      simp [List.lookup]
    · have : (k == k2) = false := by simpa using h3
      simp [List.lookup, this, ih]

/-- After `m[topic] = sub`, the key `topic` maps to `sub`. -/
theorem SubMap.get_set_self (m : SubMap) (topic : String) (sub : Sub) :
    (m.set topic sub).get topic = some sub := by
  simp [SubMap.get, SubMap.set, lookup_append_singleton, lookup_filter_ne_self]

/-- After `m[topic] = sub`, every other key maps to what it mapped to before. -/
theorem SubMap.get_set_other (m : SubMap) (topic k : String) (sub : Sub) (hk : k ≠ topic) :
    (m.set topic sub).get k = m.get k := by
  simp [SubMap.get, SubMap.set, lookup_append_singleton, lookup_filter_ne_other m topic k hk,
    hk]

/-- Setters made by `WithHandler` from handlers that are not nil, run in order from any
option, leave the last of the handlers, or the handler of the initial option when there is
no setter. -/
theorem foldl_withHandler (hs : List Handler) (setters : List InitOptionSetter)
    (hall : List.Forall₂ (fun h s => WithHandler (some h) = Except.ok s) hs setters)
    (o : initOption) :
    (setters.foldl (fun o fn => fn o) o).h = (hs.getLast?.map some).getD o.h := by
  induction hs generalizing setters o with
  | nil =>
    cases hall
    rfl
  | cons h hs2 ih =>
    cases hall with
    | cons hs1 hrest =>
      simp only [WithHandler, Except.ok.injEq] at hs1
      subst hs1
      rw [List.foldl_cons, ih _ hrest]
      cases hs2 with
      | nil => rfl
      | cons a l =>
        obtain ⟨x, hx⟩ : ∃ x, (a :: l).getLast? = some x :=
          ⟨_, List.getLast?_eq_getLast _ (List.cons_ne_nil _ _)⟩
        simp [List.getLast?_cons_cons, hx]

/-- C1. When the native callback raises `v` (nil included), `callSubHandler` calls
`OnSubscribePanic` exactly once, with the subject and data of the message and `v` as the
error value, and nothing leaves `callSubHandler` as a raise provided `OnSubscribePanic`
itself does not raise; when the callback returns, `OnSubscribePanic` is not called. -/
theorem callSubHandler_reports_raise (env : Env) (w : Worker) (H : Handler)
    (h : SubscriberHandlerFunc) (ctx : Ctx) (msg : Msg) (hH : w.handler = some H) :
    (∀ v, (h ctx msg).outcome = Outcome.raised v →
      (w.callSubHandler env h ctx msg).trace.filter Event.isPanicCall =
        [Event.onSubscribePanic ctx msg.Subject msg.Data v env.stack] ∧
      ((H.OnSubscribePanic env ctx msg.Subject msg.Data v env.stack).raised = none →
        (w.callSubHandler env h ctx msg).raised = none)) ∧
    ((h ctx msg).outcome = Outcome.returned →
      (w.callSubHandler env h ctx msg).trace.filter Event.isPanicCall = [] ∧
      (w.callSubHandler env h ctx msg).raised = none) := by
  refine ⟨?_, ?_⟩
  · intro v hv
    cases v <;>
      simp [Worker.callSubHandler, hv, hH, List.filter_append, filter_isPanicCall_ops,
        filter_isPanicCall_logs, Event.isPanicCall]
  · intro hr
    simp [Worker.callSubHandler, hr, filter_isPanicCall_ops, Event.isPanicCall]

/-- C1, at a concrete input: the default handler, a callback that raises nil. -/
theorem callSubHandler_reports_raise_witness :
    sampleWorker.handler = some (noHandler ⟨"natsq"⟩) ∧
    ((sampleWorker.callSubHandler sampleEnv (fun _ _ => ⟨[], Outcome.raised Any.nil⟩)
        Ctx.Background sampleMsg).trace.filter Event.isPanicCall =
        [Event.onSubscribePanic Ctx.Background "orders" [1, 2, 3] Any.nil [103, 111]]) ∧
    (sampleWorker.callSubHandler sampleEnv (fun _ _ => ⟨[], Outcome.raised Any.nil⟩)
        Ctx.Background sampleMsg).raised = none :=
  have h := (callSubHandler_reports_raise sampleEnv sampleWorker (noHandler ⟨"natsq"⟩)
    (fun _ _ => ⟨[], Outcome.raised Any.nil⟩) Ctx.Background sampleMsg rfl).1 Any.nil rfl
  ⟨rfl, h.1, h.2 rfl⟩

/-- C2, refuted at a concrete input: `sampleFunc` raises on `badMsg`, and the run of
`callSubHandler` on the wrapped callback performs no `Nak` at all (and no `Ack`), so it is
not the case that exactly one `Nak` is performed. -/
theorem wrapWorker_raise_one_nak_counterexample :
    sampleFunc Ctx.Background badMsg.Subject badMsg.Data = WorkerOutcome.raised (Any.str "bad") ∧
    (sampleWorker.callSubHandler sampleEnv (wrapWorker sampleEnv sampleFunc) Ctx.Background
      badMsg).trace.countP Event.isNak = 0 ∧
    ¬ ((sampleWorker.callSubHandler sampleEnv (wrapWorker sampleEnv sampleFunc) Ctx.Background
      badMsg).trace.countP Event.isNak = 1 ∧
      (sampleWorker.callSubHandler sampleEnv (wrapWorker sampleEnv sampleFunc) Ctx.Background
      badMsg).trace.countP Event.isAck = 0) := by
  decide

/-- C2, amended. When the simplified callback raises, the run of `callSubHandler` on the
wrapped callback performs no `Nak` and no `Ack`: the message is left unacknowledged. -/
theorem wrapWorker_raise_no_ack_no_nak (env : Env) (w : Worker) (f : WorkerHandlerFunc)
    (ctx : Ctx) (msg : Msg) (v : Any)
    (hf : f ctx msg.Subject msg.Data = WorkerOutcome.raised v) :
    (w.callSubHandler env (wrapWorker env f) ctx msg).trace.countP Event.isNak = 0 ∧
    (w.callSubHandler env (wrapWorker env f) ctx msg).trace.countP Event.isAck = 0 := by
  have hl := countP_logs
  cases hw : w.handler <;> cases v <;>
    simp [Worker.callSubHandler, wrapWorker, hf, hw, hl, Event.isNak, Event.isAck]

/-- C2 amended, at a concrete input. -/
theorem wrapWorker_raise_no_ack_no_nak_witness :
    sampleFunc Ctx.Background badMsg.Subject badMsg.Data = WorkerOutcome.raised (Any.str "bad") ∧
    (sampleWorker.callSubHandler sampleEnv (wrapWorker sampleEnv sampleFunc) Ctx.Background
      badMsg).trace.countP Event.isNak = 0 ∧
    (sampleWorker.callSubHandler sampleEnv (wrapWorker sampleEnv sampleFunc) Ctx.Background
      badMsg).trace.countP Event.isAck = 0 :=
  ⟨rfl, wrapWorker_raise_no_ack_no_nak sampleEnv sampleWorker sampleFunc Ctx.Background badMsg
    (Any.str "bad") rfl⟩

/-- C3. When the simplified callback returns `noRetry`, the run of `callSubHandler` on the
wrapped callback consists of the callback invocation followed by exactly one acknowledge
operation on the message, `Ack` when `noRetry` is true and `Nak` when it is false, whatever
result the transport gives to that operation; `OnSubscribePanic` is not called and nothing
is raised. -/
theorem wrapWorker_return_acks_once (env : Env) (w : Worker) (f : WorkerHandlerFunc)
    (ctx : Ctx) (msg : Msg) (noRetry : Bool)
    (hf : f ctx msg.Subject msg.Data = WorkerOutcome.returned noRetry) :
    (w.callSubHandler env (wrapWorker env f) ctx msg).trace =
      [Event.callback ctx msg,
       Event.op (if noRetry then Op.ack msg (env.ack msg) else Op.nak msg (env.nak msg))] ∧
    (w.callSubHandler env (wrapWorker env f) ctx msg).trace.countP Event.isAck =
      (if noRetry then 1 else 0) ∧
    (w.callSubHandler env (wrapWorker env f) ctx msg).trace.countP Event.isNak =
      (if noRetry then 0 else 1) ∧
    (w.callSubHandler env (wrapWorker env f) ctx msg).trace.countP Event.isPanicCall = 0 ∧
    (w.callSubHandler env (wrapWorker env f) ctx msg).raised = none := by
  cases noRetry <;>
    simp [Worker.callSubHandler, wrapWorker, hf, Event.isNak, Event.isAck, Event.isPanicCall]

/-- C3, at concrete inputs: a `Nak` that the transport rejects is still the one operation
performed when the callback returns false. -/
theorem wrapWorker_return_acks_once_witness :
    sampleFunc Ctx.Background "orders" [] = WorkerOutcome.returned false ∧
    (sampleWorker.callSubHandler sampleEnv (wrapWorker sampleEnv sampleFunc) Ctx.Background
      { sampleMsg with Data := [] }).trace =
      [Event.callback Ctx.Background { sampleMsg with Data := [] },
       Event.op (Op.nak { sampleMsg with Data := [] }
        (some (Error.base "nats: message was already acknowledged")))] :=
  ⟨rfl, (wrapWorker_return_acks_once sampleEnv sampleWorker sampleFunc Ctx.Background
    { sampleMsg with Data := [] } false rfl).1⟩

/-- C4. When the context holds a non-empty string `T` under the request-id key,
`NewPublishId` returns the same context and `T` and generates no uuid; every message that
`Publish` hands to the handler has `T` under the publish-id header, and `Publish` does hand
over such a message (subject `topic`, the serialized data) whenever serialization and
connection acquisition succeed. -/
theorem publish_keeps_ambient_id (K : Constants) (env : Env) (w : Worker) (H : Handler)
    (ctx : Ctx) (topic : String) (data : Any) (T : String) (hH : w.handler = some H)
    (hv : ctx.Value K.RequestIdKey = Any.str T) (hT : T ≠ "") :
    (NewPublishId K env ctx).ctx = ctx ∧ (NewPublishId K env ctx).pubId = T ∧
    (NewPublishId K env ctx).trace = [] ∧
    (∀ c conn m, Event.handlerPublish c conn m ∈ (w.Publish K env ctx topic data).trace →
      m.Header.Get K.HeaderPublishId = T) ∧
    (∀ d conn, env.marshal data = Except.ok d → (w.Client env).conn = Except.ok conn →
      Event.handlerPublish ctx conn
        { Subject := topic, Reply := "", Header := Header.empty.Set K.HeaderPublishId T,
          Data := d } ∈ (w.Publish K env ctx topic data).trace) := by
  have hp := NewPublishId_of_requestId K env ctx T hv hT
  have hh : (w.Client env).worker.handler = some H := by rw [(Client_frame env w).1, hH]
  refine ⟨by rw [hp], by rw [hp], by rw [hp], ?_, ?_⟩
  · intro c conn m hm
    cases hd : env.marshal data with
    | error e => simp [Worker.Publish, hd, hp] at hm
    | ok d =>
      cases hc : (w.Client env).conn with
      | error e =>
        simp [Worker.Publish, hd, hp, hc] at hm
        obtain ⟨o, ho⟩ := Client_trace_ops env w _ hm
        cases ho
      | ok cn =>
        simp [Worker.Publish, hd, hp, hc, hh] at hm
        rcases hm with hm | hm
        · obtain ⟨o, ho⟩ := Client_trace_ops env w _ hm
          cases ho
        · obtain ⟨-, -, rfl⟩ := hm
          exact Header.Get_Set _ _ _
  · intro d conn hd hc
    simp [Worker.Publish, hd, hp, hc, hh]

/-- C4, at a concrete input: the context carries the request id "req-9". -/
theorem publish_keeps_ambient_id_witness :
    sampleWorker.handler = some (noHandler ⟨"natsq"⟩) ∧
    (Ctx.Background.WithValue 0 (Any.str "req-9")).Value sampleK.RequestIdKey =
      Any.str "req-9" ∧
    "req-9" ≠ "" ∧
    (NewPublishId sampleK sampleEnv (Ctx.Background.WithValue 0 (Any.str "req-9"))).pubId =
      "req-9" ∧
    Event.handlerPublish (Ctx.Background.WithValue 0 (Any.str "req-9")) ⟨7⟩
        { Subject := "orders", Reply := "",
          Header := Header.empty.Set sampleK.HeaderPublishId "req-9", Data := [123, 125] } ∈
      (sampleWorker.Publish sampleK sampleEnv (Ctx.Background.WithValue 0 (Any.str "req-9"))
        "orders" (Any.str "x")).trace :=
  have h := publish_keeps_ambient_id sampleK sampleEnv sampleWorker (noHandler ⟨"natsq"⟩)
    (Ctx.Background.WithValue 0 (Any.str "req-9")) "orders" (Any.str "x") "req-9" rfl rfl
    (by decide)
  ⟨rfl, rfl, by decide, h.2.1, h.2.2.2.2 [123, 125] ⟨7⟩ rfl rfl⟩

/-- C6. When serialization of the payload fails, `Publish` returns a non-nil error (the
traced serialization error) and raises nothing, leaves the worker (and so its connection
handle) unchanged, and its only effects are the derivation of the publish id and one error
log line: no connect and no call of `Handler.Publish`. -/
theorem publish_serialization_failure (K : Constants) (env : Env) (w : Worker) (ctx : Ctx)
    (topic : String) (data : Any) (e : Error) (hd : env.marshal data = Except.error e) :
    (w.Publish K env ctx topic data).err = some (errxTrace e) ∧
    (w.Publish K env ctx topic data).err ≠ none ∧
    (w.Publish K env ctx topic data).raised = none ∧
    (w.Publish K env ctx topic data).worker = w ∧
    (w.Publish K env ctx topic data).trace = (NewPublishId K env ctx).trace ++
      [Event.op (Op.log LogLevel.error
        "Failed to serialize payload to json. Topic=%s Payload=%+v")] ∧
    (w.Publish K env ctx topic data).trace.countP Event.isConnect = 0 ∧
    (w.Publish K env ctx topic data).trace.countP Event.isHandlerPublish = 0 := by
  have hn : (NewPublishId K env ctx).trace.countP Event.isConnect = 0 ∧
      (NewPublishId K env ctx).trace.countP Event.isHandlerPublish = 0 := by
    unfold NewPublishId
    split
    · split <;> simp [Event.isConnect, Event.isHandlerPublish]
    · simp [Event.isConnect, Event.isHandlerPublish]
  simp [Worker.Publish, hd, hn, Event.isConnect, Event.isHandlerPublish]

/-- C6, at a concrete input: a payload the encoder rejects. -/
theorem publish_serialization_failure_witness :
    sampleEnv.marshal (Any.other 3) = Except.error (Error.base "json: unsupported type") ∧
    (sampleWorker.Publish sampleK sampleEnv Ctx.Background "orders" (Any.other 3)).err =
      some (Error.traced (Error.base "json: unsupported type")) ∧
    (sampleWorker.Publish sampleK sampleEnv Ctx.Background "orders" (Any.other 3)).worker =
      sampleWorker :=
  have h := publish_serialization_failure sampleK sampleEnv sampleWorker Ctx.Background
    "orders" (Any.other 3) (Error.base "json: unsupported type") rfl
  ⟨rfl, h.1, h.2.2.2.1⟩

/-- C7. When serialization and connection acquisition succeed, `Publish` calls
`Handler.Publish` exactly once, with the derived context, the acquired connection and the
message whose subject is the topic, whose data is the serialized payload and whose
publish-id header is the derived publish id, and it returns exactly what the handler
returned (for the default handler: what `conn.PublishMsg` returned). When connection
acquisition fails, `Publish` returns a non-nil error and does not call `Handler.Publish`. -/
theorem publish_delegates_to_handler (K : Constants) (env : Env) (w : Worker) (H : Handler)
    (ctx : Ctx) (topic : String) (data : Any) (d : Bytes) (hH : w.handler = some H)
    (hd : env.marshal data = Except.ok d) :
    (∀ conn, (w.Client env).conn = Except.ok conn →
      (w.Publish K env ctx topic data).trace.filter Event.isHandlerPublish =
        [Event.handlerPublish (NewPublishId K env ctx).ctx conn
          { Subject := topic, Reply := "",
            Header := Header.empty.Set K.HeaderPublishId (NewPublishId K env ctx).pubId,
            Data := d }] ∧
      (Header.empty.Set K.HeaderPublishId (NewPublishId K env ctx).pubId).Get
        K.HeaderPublishId = (NewPublishId K env ctx).pubId ∧
      (w.Publish K env ctx topic data).err =
        (H.Publish env (NewPublishId K env ctx).ctx conn
          { Subject := topic, Reply := "",
            Header := Header.empty.Set K.HeaderPublishId (NewPublishId K env ctx).pubId,
            Data := d }).err ∧
      (w.Publish K env ctx topic data).raised = none ∧
      (H = noHandler w.log → (w.Publish K env ctx topic data).err =
        env.publishMsg conn
          { Subject := topic, Reply := "",
            Header := Header.empty.Set K.HeaderPublishId (NewPublishId K env ctx).pubId,
            Data := d })) ∧
    (∀ e, (w.Client env).conn = Except.error e →
      (w.Publish K env ctx topic data).err = some (errxTrace e) ∧
      (w.Publish K env ctx topic data).err ≠ none ∧
      (w.Publish K env ctx topic data).trace.filter Event.isHandlerPublish = []) := by
  have hh : (w.Client env).worker.handler = some H := by rw [(Client_frame env w).1, hH]
  have hn : (NewPublishId K env ctx).trace.filter Event.isHandlerPublish = [] := by
    unfold NewPublishId
    split
    · split <;> simp [Event.isHandlerPublish]
    · simp [Event.isHandlerPublish]
  have hc0 := Client_filter_isHandlerPublish env w
  refine ⟨?_, ?_⟩
  · intro conn hc
    refine ⟨?_, Header.Get_Set _ _ _, ?_, ?_, ?_⟩
    · simp [Worker.Publish, hd, hc, hh, List.filter_append, hn, hc0,
        filter_isHandlerPublish_ops, Event.isHandlerPublish]
    · simp [Worker.Publish, hd, hc, hh]
    · simp [Worker.Publish, hd, hc, hh]
    · intro hdef
      subst hdef
      simp [Worker.Publish, hd, hc, hh, noHandler]
  · intro e hc
    simp [Worker.Publish, hd, hc, List.filter_append, hn, hc0, Event.isHandlerPublish]

/-- C7, at concrete inputs: a worker that can connect hands the message to the default
handler; a worker that cannot connect returns the traced connect error. -/
theorem publish_delegates_to_handler_witness :
    sampleWorker.handler = some (noHandler ⟨"natsq"⟩) ∧
    sampleEnv.marshal (Any.str "x") = Except.ok [123, 125] ∧
    (sampleWorker.Publish sampleK sampleEnv Ctx.Background "orders"
      (Any.str "x")).trace.filter Event.isHandlerPublish =
      [Event.handlerPublish (Ctx.Background.WithValue 0 (Any.str "u-1")) ⟨7⟩
        { Subject := "orders", Reply := "",
          Header := ⟨[("publish-id", ["u-1"])]⟩, Data := [123, 125] }] ∧
    (sampleWorker.Publish sampleK offlineEnv Ctx.Background "orders" (Any.str "x")).err =
      some (Error.traced (Error.traced (Error.base "nats: no servers"))) :=
  ⟨rfl, rfl,
   ((publish_delegates_to_handler sampleK sampleEnv sampleWorker (noHandler ⟨"natsq"⟩)
      Ctx.Background "orders" (Any.str "x") [123, 125] rfl rfl).1 ⟨7⟩ rfl).1,
   ((publish_delegates_to_handler sampleK offlineEnv sampleWorker (noHandler ⟨"natsq"⟩)
      Ctx.Background "orders" (Any.str "x") [123, 125] rfl rfl).2
      (Error.traced (Error.base "nats: no servers")) rfl).1⟩

/-- C5. For every worker state and every outcome of the unsubscribes, `Close` attempts
`Unsubscribe` on every registered subscription (each once), calls `Close` once on the
worker's connection handle, and leaves the worker with an empty registry and a nil
connection handle, as in a freshly constructed worker; the next `Client` call on it
connects anew. -/
theorem close_resets_worker (env : Env) (w : Worker) :
    (w.Close env).2.filterMap Event.unsubscribed = w.subs.map Prod.snd ∧
    (w.Close env).2.filterMap Event.closed = [w.client] ∧
    (w.Close env).1.subs = [] ∧ (w.Close env).1.client = none ∧
    (∀ host port token args,
      (w.Close env).1.client = (NewWorker host port token args).client ∧
      (w.Close env).1.subs = (NewWorker host port token args).subs) ∧
    (∀ env2 : Env, ((w.Close env).1.Client env2).trace.countP Event.isConnect = 1 ∧
      ((w.Close env).1.Client env2).conn =
        (env2.connect ("nats://" ++ w.host ++ ":" ++ toString w.port) w.authToken).mapError
          errxTrace) := by
  refine ⟨?_, ?_, rfl, rfl, fun _ _ _ _ => ⟨rfl, rfl⟩, ?_⟩
  · simp [Worker.Close, List.filterMap_append, closeLoop_unsubscribed, Event.unsubscribed]
  · simp [Worker.Close, List.filterMap_append, closeLoop_closed, Event.closed]
  · intro env2
    cases hc : env2.connect ("nats://" ++ w.host ++ ":" ++ toString w.port) w.authToken <;>
      simp [Worker.Close, Worker.Client, hc, Event.isConnect, Except.mapError]

/-- C5, at a concrete input: three registered subscriptions, the second of which fails to
unsubscribe; all three are attempted, the connection is closed, the worker is reset. -/
theorem close_resets_worker_witness :
    sampleEnv.unsubscribe ⟨2⟩ = some (Error.base "nats: invalid subscription") ∧
    (busyWorker.Close sampleEnv).2.filterMap Event.unsubscribed = [⟨1⟩, ⟨2⟩, ⟨3⟩] ∧
    (busyWorker.Close sampleEnv).2.filterMap Event.closed = [some ⟨7⟩] ∧
    (busyWorker.Close sampleEnv).1.subs = [] ∧
    (busyWorker.Close sampleEnv).1.client = none :=
  have h := close_resets_worker sampleEnv busyWorker
  ⟨rfl, h.1.trans rfl, h.2.1.trans rfl, h.2.2.1, h.2.2.2.1⟩

/-- C8. The subscription trampoline invokes the native callback once, with a context
whose publish-id key holds the string found under the publish-id header of the delivered
message, the empty string when the header has no such key. Hence for every message that
`Publish` hands to the handler, a subscriber that is delivered that message sees in its
context the publish id that `Publish` derived. -/
theorem trampoline_publish_id (K : Constants) (env : Env) (w : Worker) (topic : String)
    (handler : SubscriberHandlerFunc) (msg : Msg) :
    (∃ c, (w.trampoline K env topic handler msg).trace.filterMap Event.callbackCtx = [c] ∧
      c.Value K.ContextPublishId = Any.str (msg.Header.Get K.HeaderPublishId) ∧
      (msg.Header.entries.lookup K.HeaderPublishId = none →
        c.Value K.ContextPublishId = Any.str "")) ∧
    (∀ (penv : Env) (pw : Worker) (pctx : Ctx) (ptopic : String) (data : Any) (c : Ctx)
      (conn : Conn) (m : Msg),
      Event.handlerPublish c conn m ∈ (pw.Publish K penv pctx ptopic data).trace →
      ∃ c2, (w.trampoline K env topic handler m).trace.filterMap Event.callbackCtx = [c2] ∧
        c2.Value K.ContextPublishId = Any.str (NewPublishId K penv pctx).pubId) := by
  have key : ∀ m : Msg, ∃ c,
      (w.trampoline K env topic handler m).trace.filterMap Event.callbackCtx = [c] ∧
      c.Value K.ContextPublishId = Any.str (m.Header.Get K.HeaderPublishId) := by
    intro m
    refine ⟨(Ctx.Background.WithValue K.ContextStartedAt (Any.time env.now)).WithValue
      K.ContextPublishId (Any.str (m.Header.Get K.HeaderPublishId)), ?_, ?_⟩
    · unfold Worker.trampoline
      simp only []
      split <;>
        simp [List.filterMap_append, callSubHandler_callbackCtx, Event.callbackCtx]
    · simp [Ctx.Value, Ctx.WithValue, List.lookup]
  refine ⟨?_, ?_⟩
  · obtain ⟨c, h1, h2⟩ := key msg
    refine ⟨c, h1, h2, ?_⟩
    intro hnone
    rw [h2]
    simp [Header.Get, hnone]
  · intro penv pw pctx ptopic data c conn m hm
    obtain ⟨c2, h1, h2⟩ := key m
    refine ⟨c2, h1, ?_⟩
    rw [h2, Publish_handlerPublish_header K penv pw pctx ptopic data c conn m hm]

/-- C8, at a concrete input: the message published by the sample worker, delivered to a
subscriber, shows the generated id "u-1" in the subscriber context. -/
theorem trampoline_publish_id_witness :
    Event.handlerPublish (Ctx.Background.WithValue 0 (Any.str "u-1")) ⟨7⟩
      { Subject := "orders", Reply := "", Header := ⟨[("publish-id", ["u-1"])]⟩,
        Data := [123, 125] } ∈
      (sampleWorker.Publish sampleK sampleEnv Ctx.Background "orders" (Any.str "x")).trace ∧
    ∃ c2, (sampleWorker.trampoline sampleK sampleEnv "orders"
        (wrapWorker sampleEnv sampleFunc)
        { Subject := "orders", Reply := "", Header := ⟨[("publish-id", ["u-1"])]⟩,
          Data := [123, 125] }).trace.filterMap Event.callbackCtx = [c2] ∧
      c2.Value sampleK.ContextPublishId = Any.str "u-1" :=
  ⟨by decide,
   (trampoline_publish_id sampleK sampleEnv sampleWorker "orders"
      (wrapWorker sampleEnv sampleFunc) sampleMsg).2 sampleEnv sampleWorker Ctx.Background
      "orders" (Any.str "x") (Ctx.Background.WithValue 0 (Any.str "u-1")) ⟨7⟩
      { Subject := "orders", Reply := "", Header := ⟨[("publish-id", ["u-1"])]⟩,
        Data := [123, 125] } (by decide)⟩

/-- C9. When the connection is acquired and the queue-subscribe succeeds, `SubscribeMsg`
returns nil and the registry then maps the topic to the new subscription handle (whatever
it held before) while every other key maps to what it did before; when connection
acquisition fails, or the queue-subscribe fails, it returns a non-nil error and the
registry is unchanged. -/
theorem subscribeMsg_registry (env : Env) (w : Worker) (topic : String)
    (handler : SubscriberHandlerFunc) :
    (∀ conn sub, (w.Client env).conn = Except.ok conn →
      env.queueSubscribe conn topic topic = Except.ok sub →
      (w.SubscribeMsg env topic handler).err = none ∧
      (w.SubscribeMsg env topic handler).raised = none ∧
      (w.SubscribeMsg env topic handler).worker.subs.get topic = some sub ∧
      (∀ k, k ≠ topic →
        (w.SubscribeMsg env topic handler).worker.subs.get k = w.subs.get k)) ∧
    (∀ e, (w.Client env).conn = Except.error e →
      (w.SubscribeMsg env topic handler).err = some (errxTrace e) ∧
      (w.SubscribeMsg env topic handler).err ≠ none ∧
      (w.SubscribeMsg env topic handler).worker.subs = w.subs) ∧
    (∀ conn e, (w.Client env).conn = Except.ok conn →
      env.queueSubscribe conn topic topic = Except.error e →
      (w.SubscribeMsg env topic handler).err = some e ∧
      (w.SubscribeMsg env topic handler).err ≠ none ∧
      (w.SubscribeMsg env topic handler).worker.subs = w.subs) := by
  have hs := (Client_frame env w).2
  refine ⟨?_, ?_, ?_⟩
  · intro conn sub hc hq
    refine ⟨?_, ?_, ?_, ?_⟩
    · simp [Worker.SubscribeMsg, hc, hq]
    · simp [Worker.SubscribeMsg, hc, hq]
    · simp [Worker.SubscribeMsg, hc, hq, SubMap.get_set_self]
    · intro k hk
      simp [Worker.SubscribeMsg, hc, hq, SubMap.get_set_other _ _ _ _ hk, hs]
  · intro e hc
    simp [Worker.SubscribeMsg, hc, hs]
  · intro conn e hc hq
    simp [Worker.SubscribeMsg, hc, hq, hs]

/-- C9, at concrete inputs: a second subscribe on "orders" replaces the handle of
"orders" and keeps the one of "audit"; a subscribe that the transport rejects returns its
error. -/
theorem subscribeMsg_registry_witness :
    ({ sampleWorker with subs := [("orders", ⟨1⟩), ("audit", ⟨2⟩)] }.SubscribeMsg sampleEnv
        "orders" (wrapWorker sampleEnv sampleFunc)).worker.subs.get "orders" = some ⟨6⟩ ∧
    ({ sampleWorker with subs := [("orders", ⟨1⟩), ("audit", ⟨2⟩)] }.SubscribeMsg sampleEnv
        "orders" (wrapWorker sampleEnv sampleFunc)).worker.subs.get "audit" = some ⟨2⟩ ∧
    (sampleWorker.SubscribeMsg sampleEnv "down" (wrapWorker sampleEnv sampleFunc)).err =
      some (Error.base "nats: invalid subject") :=
  have h := (subscribeMsg_registry sampleEnv
    { sampleWorker with subs := [("orders", ⟨1⟩), ("audit", ⟨2⟩)] } "orders"
    (wrapWorker sampleEnv sampleFunc)).1 ⟨7⟩ ⟨6⟩ rfl rfl
  ⟨h.2.2.1, (h.2.2.2 "audit" (by decide)).trans rfl,
   ((subscribeMsg_registry sampleEnv sampleWorker "down"
      (wrapWorker sampleEnv sampleFunc)).2.2 ⟨7⟩ (Error.base "nats: invalid subject")
      rfl rfl).1⟩

/-- C10. The call `WithHandler(nil)` raises instead of returning a setter; a handler that
is not nil yields a setter; and for every list of handlers that are not nil, evaluating
the setters `WithHandler` made from them, in order, yields the last handler of the list,
or the default handler `noHandler` when the list is empty, so the evaluated handler is
never nil. -/
theorem withHandler_evaluate :
    WithHandler none = Except.error emptyHandlerError ∧
    (∀ h : Handler, ∃ s, WithHandler (some h) = Except.ok s) ∧
    (∀ (log : Logger) (hs : List Handler) (setters : List InitOptionSetter),
      List.Forall₂ (fun h s => WithHandler (some h) = Except.ok s) hs setters →
      (evaluateInitOptions log setters).h = some (hs.getLast?.getD (noHandler log)) ∧
      (hs = [] → (evaluateInitOptions log setters).h = some (noHandler log)) ∧
      (evaluateInitOptions log setters).h ≠ none) := by
  refine ⟨rfl, fun h => ⟨_, rfl⟩, ?_⟩
  intro log hs setters hall
  have h1 : (evaluateInitOptions log setters).h = some (hs.getLast?.getD (noHandler log)) := by
    unfold evaluateInitOptions
    rw [foldl_withHandler hs setters hall]
    cases hs.getLast? <;> rfl
  refine ⟨h1, ?_, ?_⟩
  · intro hnil
    subst hnil
    simpa using h1
  · rw [h1]
    simp

/-- C10, at a concrete input: two setters, the second one wins. -/
theorem withHandler_evaluate_witness :
    (evaluateInitOptions ⟨"natsq"⟩
      [fun o => { o with h := some (noHandler ⟨"first"⟩) },
       fun o => { o with h := some (noHandler ⟨"second"⟩) }]).h =
      some (noHandler ⟨"second"⟩) :=
  (withHandler_evaluate.2.2 ⟨"natsq"⟩ [noHandler ⟨"first"⟩, noHandler ⟨"second"⟩]
    [fun o => { o with h := some (noHandler ⟨"first"⟩) },
     fun o => { o with h := some (noHandler ⟨"second"⟩) }]
    (List.Forall₂.cons rfl (List.Forall₂.cons rfl List.Forall₂.nil))).1

end Natsq
